import Mathlib

/-
Verification of the solar-phase transition scheduler in
cover-change-test/cover-change.py.

Time instants are modelled as rational numbers of minutes (timezone-aware
datetimes form a linear order with exact timedelta arithmetic; a
timedelta of h hours is 60 * h minutes).  Configured durations
(MORNING_DURATION, EVENING_DURATION, TIME_OFFSET) are floats read from
the environment, modelled as rationals measured in hours.
-/

namespace CoverChange

/-- The four time-of-day phases of the script. -/
inductive Phase where
  | morning
  | day
  | evening
  | night
deriving DecidableEq, Repr

/-- Position of a phase in the daily order morning, day, evening, night
(used to state monotonicity of the resolver). -/
def Phase.idx : Phase → ℕ
  | .morning => 0
  | .day => 1
  | .evening => 2
  | .night => 3

/-- The dictionary returned by calculate_phase_times: one start instant
per phase (minutes). -/
structure PhaseTimes where
  morning : ℚ
  day : ℚ
  evening : ℚ
  night : ℚ
deriving DecidableEq, Repr

/-- The invariant claimed for a PhaseSchedule: start instants in
non-decreasing order. -/
def PhaseTimes.Ordered (pt : PhaseTimes) : Prop :=
  pt.morning ≤ pt.day ∧ pt.day ≤ pt.evening ∧ pt.evening ≤ pt.night

/-- Embedding of calculate_phase_times, lines 308-346.  The first branch
is debug mode: the inner test TIME_OFFSET != 0 and not DEBUG_MODE is
unreachable there (DEBUG_MODE is true), so the debug times are returned
verbatim.  Otherwise the schedule is derived from sunrise and sunset
with the two configured durations (hours, hence the factor 60). -/
def calculate_phase_times (debugMode : Bool) (debugTimes : Option PhaseTimes)
    (sunrise sunset : ℚ) (morningDuration eveningDuration : ℚ) : PhaseTimes :=
  match debugMode, debugTimes with
  | true, some dt => dt
  | _, _ =>
    { morning := sunrise
      day := sunrise + 60 * morningDuration
      evening := sunset - 60 * eveningDuration
      night := sunset }

/-- Embedding of the branch chain of get_current_phase, lines 359-368:
the function computes now and the phase times and then resolves with
this chain of strict comparisons. -/
def get_current_phase (pt : PhaseTimes) (now : ℚ) : Phase :=
  if now < pt.morning then .night
  else if now < pt.day then .morning
  else if now < pt.evening then .day
  else if now < pt.night then .evening
  else .night

/-- Claim C1: for every schedule with ordered start instants and every
instant now, get_current_phase resolves night before morning_start,
morning on [morning_start, day_start), day on [day_start,
evening_start), evening on [evening_start, night_start), and night from
night_start on, ties going to the later-named phase. -/
theorem C1_resolver_cases (pt : PhaseTimes) (now : ℚ) (hord : pt.Ordered) :
    (now < pt.morning → get_current_phase pt now = .night) ∧
    (pt.morning ≤ now → now < pt.day → get_current_phase pt now = .morning) ∧
    (pt.day ≤ now → now < pt.evening → get_current_phase pt now = .day) ∧
    (pt.evening ≤ now → now < pt.night → get_current_phase pt now = .evening) ∧
    (pt.night ≤ now → get_current_phase pt now = .night) := by
  obtain ⟨h1, h2, h3⟩ := hord
  unfold get_current_phase
  refine ⟨?_, ?_, ?_, ?_, ?_⟩ <;> intros <;> split_ifs <;> first
    | rfl
    | linarith

/-- Witness for C1 at a concrete ordered schedule and instant. -/
theorem C1_resolver_cases_witness :
    get_current_phase ⟨360, 540, 1080, 1260⟩ 600 = .day := by
  have h := C1_resolver_cases ⟨360, 540, 1080, 1260⟩ 600
    ⟨by norm_num, by norm_num, by norm_num⟩
  exact h.2.2.1 (by norm_num) (by norm_num)

/-- In non-override mode the debug branch is not taken, whatever the
parsed override times are. -/
theorem calculate_phase_times_nondebug (sunrise sunset md ed : ℚ)
    (dt : Option PhaseTimes) :
    calculate_phase_times false dt sunrise sunset md ed =
      { morning := sunrise
        day := sunrise + 60 * md
        evening := sunset - 60 * ed
        night := sunset } := by
  cases dt <;> rfl

/-- Claim C4: in non-override mode the calculator returns exactly
morning_start = sunrise, day_start = sunrise + MORNING_DURATION hours,
evening_start = sunset - EVENING_DURATION hours, night_start = sunset,
with exact (drift-free) arithmetic. -/
theorem C4_calculator_formula (sunrise sunset md ed : ℚ)
    (dt : Option PhaseTimes) :
    calculate_phase_times false dt sunrise sunset md ed =
      { morning := sunrise
        day := sunrise + 60 * md
        evening := sunset - 60 * ed
        night := sunset } :=
  calculate_phase_times_nondebug sunrise sunset md ed dt

/-- Claim C6: when sunrise ≤ sunset, the durations are non-negative and
their sum does not exceed the sunrise-to-sunset gap (in hours), the
computed schedule satisfies the ordering invariant.  No clamping is
performed, so the bound on the durations is required. -/
theorem C6_calculator_ordered (sunrise sunset md ed : ℚ)
    (dt : Option PhaseTimes)
    (hmd : 0 ≤ md) (hed : 0 ≤ ed)
    (hsum : 60 * (md + ed) ≤ sunset - sunrise) :
    (calculate_phase_times false dt sunrise sunset md ed).Ordered := by
  rw [calculate_phase_times_nondebug]
  exact ⟨by dsimp only; linarith, by dsimp only; linarith, by dsimp only; linarith⟩

/-- Witness for C6: sunrise 06:00, sunset 18:00, durations 3 and 2
hours. -/
theorem C6_calculator_ordered_witness :
    (calculate_phase_times false none 360 1080 3 2).Ordered :=
  C6_calculator_ordered 360 1080 3 2 none (by norm_num) (by norm_num)
    (by norm_num)

/-- Claim C5: the resolver is total (always one of the four phases, for
every schedule, even unordered) and, on an ordered schedule, monotone in
now over the day: from morning_start on, later instants resolve to
later-or-equal phases in the order morning, day, evening, night. -/
theorem C5_resolver_total_monotone :
    (∀ (pt : PhaseTimes) (now : ℚ),
      get_current_phase pt now = .morning ∨ get_current_phase pt now = .day ∨
      get_current_phase pt now = .evening ∨ get_current_phase pt now = .night) ∧
    (∀ (pt : PhaseTimes) (now₁ now₂ : ℚ), pt.Ordered →
      pt.morning ≤ now₁ → now₁ < now₂ →
      (get_current_phase pt now₁).idx ≤ (get_current_phase pt now₂).idx) := by
  constructor
  · intro pt now
    unfold get_current_phase
    split_ifs <;> simp
  · intro pt now₁ now₂ hord h₁ h₁₂
    obtain ⟨ha, hb, hc⟩ := hord
    unfold get_current_phase
    split_ifs <;> simp [Phase.idx] <;> linarith

/-- Witness for C5 at a concrete ordered schedule and pair of
instants. -/
theorem C5_resolver_total_monotone_witness :
    (get_current_phase ⟨360, 540, 1080, 1260⟩ 400).idx ≤
      (get_current_phase ⟨360, 540, 1080, 1260⟩ 1100).idx :=
  C5_resolver_total_monotone.2 ⟨360, 540, 1080, 1260⟩ 400 1100
    ⟨by norm_num, by norm_num, by norm_num⟩ (by norm_num) (by norm_num)

/-! State management and the cover-change action (lines 567-599, 602-638
and 654-671).  Python exceptions are modelled by an explicit outcome per
external step; the state file on disk is modelled by a StateFile
value. -/

/-- Outcome of one external step: it either completes or raises. -/
inductive StepOutcome where
  | ok
  | raises (msg : String)
deriving DecidableEq, Repr

/-- Whether a step completed without raising. -/
def StepOutcome.succeeds : StepOutcome → Bool
  | .ok => true
  | .raises _ => false

/-- The external steps one change_cover call can perform: the playlist
fetch, the image read/encode, the cover upload (all inside
change_playlist_cover), and the state-file write inside save_state. -/
structure CallEnv where
  fetchPlaylist : StepOutcome
  encodeImage : StepOutcome
  uploadCover : StepOutcome
  writeState : StepOutcome
deriving DecidableEq, Repr

/-- The state file cover_state.json: absent, unreadable, or holding a
previously saved phase. -/
inductive StateFile where
  | missing
  | corrupt
  | saved (phase : Phase)
deriving DecidableEq, Repr

/-- Embedding of change_playlist_cover, lines 567-599: the whole body is
one try block returning True at the end; any exception in the playlist
fetch, the image encoding or the upload is caught and the function
returns False.  It never raises. -/
def change_playlist_cover (env : CallEnv) : Bool :=
  match env.fetchPlaylist with
  | .raises _ => false
  | .ok =>
    match env.encodeImage with
    | .raises _ => false
    | .ok =>
      match env.uploadCover with
      | .raises _ => false
      | .ok => true

/-- Embedding of load_state, lines 625-638: a missing file gives None
and a read/parse error is caught and also gives None. -/
def load_state : StateFile → Option Phase
  | .missing => none
  | .corrupt => none
  | .saved p => some p

/-- Embedding of save_state, lines 602-623: on success the file holds
the new phase; an exception during the write is caught and logged,
leaving the file as it was. -/
def save_state (file : StateFile) (phase : Phase) (env : CallEnv) : StateFile :=
  match env.writeState with
  | .ok => .saved phase
  | .raises _ => file

/-- Embedding of change_cover, lines 654-671.  If the loaded state
already equals the requested phase it returns without any external
action; otherwise change_playlist_cover runs once and save_state runs
only on success.  The second component counts the invocations of the
external action change_playlist_cover. -/
def change_cover (file : StateFile) (phase : Phase) (env : CallEnv) :
    StateFile × ℕ :=
  if load_state file = some phase then (file, 0)
  else if change_playlist_cover env then (save_state file phase env, 1)
  else (file, 1)

/-- The external action reports success exactly when none of its three
steps raises. -/
theorem change_playlist_cover_eq_and (env : CallEnv) :
    change_playlist_cover env =
      (env.fetchPlaylist.succeeds && env.encodeImage.succeeds &&
        env.uploadCover.succeeds) := by
  unfold change_playlist_cover StepOutcome.succeeds
  rcases env with ⟨f, e, u, w⟩
  cases f <;> cases e <;> cases u <;> rfl

/-- Claim C2: if change_cover(p) performs its upload and both the upload
and the state save succeed, an immediate second change_cover(p) makes no
external call: exactly one external action call happens across the two
invocations. -/
theorem C2_reconciliation_idempotent (file : StateFile) (p : Phase)
    (env₁ env₂ : CallEnv)
    (hdiff : load_state file ≠ some p)
    (hup : change_playlist_cover env₁ = true)
    (hsave : env₁.writeState = .ok) :
    (change_cover (change_cover file p env₁).1 p env₂).2 = 0 ∧
    (change_cover file p env₁).2 +
      (change_cover (change_cover file p env₁).1 p env₂).2 = 1 := by
  have h1 : change_cover file p env₁ = (.saved p, 1) := by
    unfold change_cover save_state
    rw [if_neg hdiff, hup, hsave]
    rfl
  rw [h1]
  unfold change_cover load_state
  simp

/-- Witness for C2: no prior state, every external step succeeds. -/
theorem C2_reconciliation_idempotent_witness :
    (change_cover (change_cover .missing .morning ⟨.ok, .ok, .ok, .ok⟩).1
        .morning ⟨.ok, .ok, .ok, .ok⟩).2 = 0 ∧
    (change_cover .missing .morning ⟨.ok, .ok, .ok, .ok⟩).2 +
      (change_cover (change_cover .missing .morning ⟨.ok, .ok, .ok, .ok⟩).1
        .morning ⟨.ok, .ok, .ok, .ok⟩).2 = 1 :=
  C2_reconciliation_idempotent .missing .morning ⟨.ok, .ok, .ok, .ok⟩
    ⟨.ok, .ok, .ok, .ok⟩ (by decide) (by decide) rfl

/-- Claim C7: when any exception is raised anywhere in the upload path,
change_playlist_cover returns False instead of raising, and change_cover
does not write the state file: the persisted state is exactly what it
was before the call. -/
theorem C7_failure_leaves_state (file : StateFile) (p : Phase) (env : CallEnv)
    (hfail : env.fetchPlaylist.succeeds = false ∨
      env.encodeImage.succeeds = false ∨ env.uploadCover.succeeds = false) :
    change_playlist_cover env = false ∧ (change_cover file p env).1 = file := by
  have hfalse : change_playlist_cover env = false := by
    rw [change_playlist_cover_eq_and]
    rcases hfail with h | h | h <;> simp [h]
  refine ⟨hfalse, ?_⟩
  unfold change_cover
  rw [hfalse]
  split <;> rfl

/-- Witness for C7: the upload step itself raises. -/
theorem C7_failure_leaves_state_witness :
    change_playlist_cover ⟨.ok, .ok, .raises "boom", .ok⟩ = false ∧
    (change_cover (.saved .night) .morning
      ⟨.ok, .ok, .raises "boom", .ok⟩).1 = .saved .night :=
  C7_failure_leaves_state (.saved .night) .morning
    ⟨.ok, .ok, .raises "boom", .ok⟩ (Or.inr (Or.inr rfl))

/-! Sunrise/sunset lookup, lines 225-306.  Instants are rational
minutes; a day index d starts at minute 1440 * d.  astimezone conversion
preserves the instant, so local conversion is the identity on the
value. -/

/-- Split of a character list at every occurrence of the separator,
with the semantics of the Python str.split at a one-character separator
(adjacent separators yield empty pieces). -/
def splitOnChar (c : Char) : List Char → List (List Char)
  | [] => [[]]
  | x :: xs =>
    let rest := splitOnChar c xs
    if x = c then [] :: rest
    else
      match rest with
      | r :: rs => (x :: r) :: rs
      | [] => [[x]]

/-- Decimal parse of a token, as int() behaves on the digit strings the
script feeds it; None models the raised ValueError. -/
def parseNat (l : List Char) : Option ℕ :=
  match l with
  | [] => none
  | _ =>
    l.foldl
      (fun acc ch =>
        match acc, ch.isDigit with
        | some n, true => some (10 * n + (ch.toNat - 48))
        | _, _ => none)
      (some 0)

/-- Parse of an HH:MM token via map(int, s.split(colon)), as in lines
102 and 284-285; None models the ValueError raised on a malformed
token. -/
def parse_hhmm (s : String) : Option (ℕ × ℕ) :=
  match (splitOnChar ':' s.toList).map parseNat with
  | [some h, some m] => some (h, m)
  | _ => none

/-- The static per-month (sunrise, sunset) table of lines 265-279; None
models the KeyError a month outside 1..12 would raise. -/
def sun_times_table (month : ℕ) : Option (String × String) :=
  match month with
  | 1 => some ("08:00", "16:00")
  | 2 => some ("07:30", "17:00")
  | 3 => some ("06:30", "18:00")
  | 4 => some ("06:00", "19:30")
  | 5 => some ("05:00", "20:30")
  | 6 => some ("04:30", "21:00")
  | 7 => some ("05:00", "21:00")
  | 8 => some ("05:30", "20:00")
  | 9 => some ("06:30", "19:00")
  | 10 => some ("07:00", "17:30")
  | 11 => some ("07:30", "16:00")
  | 12 => some ("08:00", "15:45")
  | _ => none

/-- Table entry for a month, parsed to minutes of the day. -/
def month_minutes (month : ℕ) : Option (ℕ × ℕ) :=
  match sun_times_table month with
  | none => none
  | some (srStr, ssStr) =>
    match parse_hhmm srStr, parse_hhmm ssStr with
    | some (sh, sm), some (th, tm) => some (60 * sh + sm, 60 * th + tm)
    | _, _ => none

/-- Fallback branch of get_sun_times, lines 261-306: combine the month
table entry with today and, when TIME_OFFSET is nonzero, add the offset
(hours, hence the factor 60) to both instants. -/
def fallback_sun_times (month : ℕ) (today : ℤ) (offset : ℚ) :
    Option (ℚ × ℚ) :=
  match month_minutes month with
  | none => none
  | some (sr, ss) =>
    let sunrise : ℚ := 1440 * (today : ℚ) + (sr : ℚ)
    let sunset : ℚ := 1440 * (today : ℚ) + (ss : ℚ)
    if offset ≠ 0 then some (sunrise + 60 * offset, sunset + 60 * offset)
    else some (sunrise, sunset)

/-- Result of the remote lookup of lines 234-241: the request or the
json decoding raising, or a response carrying an HTTP status code, the
status field of the body (None when the key is absent, which raises on
access and is caught), and the fromisoformat parse result of each
timestamp (error models a raised ValueError, likewise caught). -/
inductive ApiResult where
  | netError (msg : String)
  | response (statusCode : ℕ) (status : Option String)
      (sunrise sunset : Except String ℚ)

/-- The primary path succeeds exactly on a 200 response whose body says
OK and whose two timestamps parse. -/
def ApiResult.primaryOk : ApiResult → Bool
  | .netError _ => false
  | .response code status (.ok _) (.ok _) =>
    decide (code = 200) && decide (status = some "OK")
  | .response _ _ _ _ => false

/-- Embedding of get_sun_times, lines 225-306.  Every exception inside
the try block lands in the fallback branch, and so does a response that
is not 200/OK (the function falls through without returning). -/
def get_sun_times (api : ApiResult) (month : ℕ) (today : ℤ) (offset : ℚ) :
    Option (ℚ × ℚ) :=
  match api with
  | .netError _ => fallback_sun_times month today offset
  | .response code status sr ss =>
    if code = 200 ∧ status = some "OK" then
      match sr, ss with
      | .ok sunriseLocal, .ok sunsetLocal =>
        if offset ≠ 0 then
          some (sunriseLocal + 60 * offset, sunsetLocal + 60 * offset)
        else some (sunriseLocal, sunsetLocal)
      | _, _ => fallback_sun_times month today offset
    else fallback_sun_times month today offset

/-- Every month 1..12 has a table entry, and its sunrise is strictly
before its sunset. -/
theorem month_minutes_covers :
    ∀ month, 1 ≤ month → month ≤ 12 →
      ∃ a b : ℕ, month_minutes month = some (a, b) ∧ a < b := by
  intro month h1 h2
  interval_cases month
  · exact ⟨480, 960, rfl, by norm_num⟩
  · exact ⟨450, 1020, rfl, by norm_num⟩
  · exact ⟨390, 1080, rfl, by norm_num⟩
  · exact ⟨360, 1170, rfl, by norm_num⟩
  · exact ⟨300, 1230, rfl, by norm_num⟩
  · exact ⟨270, 1260, rfl, by norm_num⟩
  · exact ⟨300, 1260, rfl, by norm_num⟩
  · exact ⟨330, 1200, rfl, by norm_num⟩
  · exact ⟨390, 1140, rfl, by norm_num⟩
  · exact ⟨420, 1050, rfl, by norm_num⟩
  · exact ⟨450, 960, rfl, by norm_num⟩
  · exact ⟨480, 945, rfl, by norm_num⟩

/-- The fallback pair at any offset is the zero-offset pair shifted by
60 * offset minutes in each component. -/
theorem fallback_sun_times_offset (month : ℕ) (today : ℤ) (offset : ℚ)
    (h1 : 1 ≤ month) (h2 : month ≤ 12) :
    ∃ b c : ℚ, fallback_sun_times month today 0 = some (b, c) ∧
      fallback_sun_times month today offset =
        some (b + 60 * offset, c + 60 * offset) := by
  obtain ⟨a, b, hm, _⟩ := month_minutes_covers month h1 h2
  refine ⟨1440 * (today : ℚ) + a, 1440 * (today : ℚ) + b, ?_, ?_⟩ <;>
    simp only [fallback_sun_times, hm]
  · norm_num
  · split_ifs with h
    · rfl
    · push_neg at h
      rw [h]
      norm_num

/-- Claim C3: on any network or parse failure of the remote lookup,
get_sun_times raises nothing and returns exactly the fallback pair built
from the month table and today, with TIME_OFFSET applied additively just
as on the primary path. -/
theorem C3_fallback_on_failure (api : ApiResult) (month : ℕ) (today : ℤ)
    (offset : ℚ) (h1 : 1 ≤ month) (h2 : month ≤ 12)
    (hfail : api.primaryOk = false) :
    ∃ b c : ℚ,
      get_sun_times api month today offset =
        fallback_sun_times month today offset ∧
      fallback_sun_times month today 0 = some (b, c) ∧
      get_sun_times api month today offset =
        some (b + 60 * offset, c + 60 * offset) := by
  have hgf : get_sun_times api month today offset =
      fallback_sun_times month today offset := by
    cases api with
    | netError m => rfl
    | response code status sr ss =>
      by_cases hc : code = 200 ∧ status = some "OK"
      · cases sr with
        | error e => simp [get_sun_times, hc]
        | ok q =>
          cases ss with
          | error e => simp [get_sun_times, hc]
          | ok r =>
            exfalso
            simp [ApiResult.primaryOk, hc.1, hc.2] at hfail
      · simp [get_sun_times, hc]
  obtain ⟨b, c, hb, hc⟩ := fallback_sun_times_offset month today offset h1 h2
  exact ⟨b, c, hgf, hb, by rw [hgf, hc]⟩

/-- Witness for C3: a June lookup whose request raised. -/
theorem C3_fallback_on_failure_witness :
    ∃ b c : ℚ,
      get_sun_times (.netError "timeout") 6 0 1 = fallback_sun_times 6 0 1 ∧
      fallback_sun_times 6 0 0 = some (b, c) ∧
      get_sun_times (.netError "timeout") 6 0 1 =
        some (b + 60 * 1, c + 60 * 1) :=
  C3_fallback_on_failure (.netError "timeout") 6 0 1 (by norm_num)
    (by norm_num) rfl

/-- Claim C10: for every month 1..12 the fallback branch finds a table
entry and returns a well-defined pair with sunrise strictly before
sunset, the common offset shift preserving the strict order. -/
theorem C10_fallback_sunrise_before_sunset (month : ℕ) (today : ℤ)
    (offset : ℚ) (h1 : 1 ≤ month) (h2 : month ≤ 12) :
    ∃ sr ss : ℚ, fallback_sun_times month today offset = some (sr, ss) ∧
      sr < ss := by
  obtain ⟨a, b, hm, hab⟩ := month_minutes_covers month h1 h2
  simp only [fallback_sun_times, hm]
  split_ifs with h
  · refine ⟨_, _, rfl, ?_⟩
    have : (a : ℚ) < (b : ℚ) := by exact_mod_cast hab
    linarith
  · refine ⟨_, _, rfl, ?_⟩
    have : (a : ℚ) < (b : ℚ) := by exact_mod_cast hab
    linarith

/-- Witness for C10: December at offset zero. -/
theorem C10_fallback_sunrise_before_sunset_witness :
    ∃ sr ss : ℚ, fallback_sun_times 12 0 0 = some (sr, ss) ∧ sr < ss :=
  C10_fallback_sunrise_before_sunset 12 0 0 (by norm_num) (by norm_num)

/-! Override (debug) time parsing, lines 88-121.  The parse-time now is
an integer number of minutes from midnight of the parse day; a token
HH:MM denotes minute 60 * HH + MM of that day; the next day starts at
minute 1440. -/

/-- Removal of leading and trailing whitespace, as time_str.strip() on
line 101. -/
def stripChars (l : List Char) : List Char :=
  (((l.dropWhile Char.isWhitespace).reverse).dropWhile Char.isWhitespace).reverse

/-- One parsed override entry, lines 103-111: today at the given clock
time, advanced by one day when strictly in the past relative to now. -/
def debug_entry (now : ℤ) (minutes : ℕ) : ℤ :=
  if (minutes : ℤ) < now then (minutes : ℤ) + 1440 else (minutes : ℤ)

/-- Embedding of the override parse, lines 90-121: split the argument on
commas, fail unless there are exactly four tokens, strip and parse each
as HH:MM and build the instant for the positional phases morning, day,
evening, night in that order.  None models the except branch that logs
and disables debug mode (raised on a wrong token count or an unparsable
token). -/
def parse_debug_times (input : String) (now : ℤ) : Option (ℤ × ℤ × ℤ × ℤ) :=
  match (splitOnChar ',' input.toList).map
      (fun l => parse_hhmm (String.mk (stripChars l))) with
  | [some (h₁, m₁), some (h₂, m₂), some (h₃, m₃), some (h₄, m₄)] =>
    some (debug_entry now (60 * h₁ + m₁), debug_entry now (60 * h₂ + m₂),
      debug_entry now (60 * h₃ + m₃), debug_entry now (60 * h₄ + m₄))
  | _ => none

/-- Counterexample to claim C8: parsing "06:00,09:00,18:00,21:00" at
07:00 (minute 420) bumps only the morning entry to tomorrow, so the
morning instant (1800) is later than the day instant (540): the four
instants are not in non-decreasing order for every parse-time now. -/
theorem C8_counterexample_morning_after_day :
    parse_debug_times "06:00,09:00,18:00,21:00" 420 =
      some (1800, 540, 1080, 1260) ∧ ¬ ((1800 : ℤ) ≤ 540) := by
  exact ⟨by decide, by norm_num⟩

/-- Claim C8 amended: the well-formed override input yields the four
entries positionally at 06:00, 09:00, 18:00 and 21:00, each advanced to
tomorrow when already past now; the four instants are in non-decreasing
order provided none of them is past now, or all of them are. -/
theorem C8_override_parse_amended (now : ℤ) :
    parse_debug_times "06:00,09:00,18:00,21:00" now =
      some (debug_entry now 360, debug_entry now 540,
        debug_entry now 1080, debug_entry now 1260) ∧
    (now ≤ 360 ∨ 1260 < now →
      debug_entry now 360 ≤ debug_entry now 540 ∧
      debug_entry now 540 ≤ debug_entry now 1080 ∧
      debug_entry now 1080 ≤ debug_entry now 1260) := by
  constructor
  · rfl
  · intro h
    unfold debug_entry
    split_ifs <;> omega

/-- Witness for C8 amended: parse at midnight, before every entry. -/
theorem C8_override_parse_amended_witness :
    debug_entry 0 360 ≤ debug_entry 0 540 ∧
    debug_entry 0 540 ≤ debug_entry 0 1080 ∧
    debug_entry 0 1080 ≤ debug_entry 0 1260 :=
  (C8_override_parse_amended 0).2 (Or.inl (by norm_num))

/-! The scheduler job table and the daily recomputation, lines 370-450.
Jobs are keyed by id (the four phase names plus the recalculate marker);
add_job with replace_existing sets the entry for its id. -/

/-- Integer phase start instants (minutes), as consumed by the
scheduling functions. -/
structure PhaseInstants where
  morning : ℤ
  day : ℤ
  evening : ℤ
  night : ℤ
deriving DecidableEq, Repr

/-- Start instant of one phase. -/
def PhaseInstants.get (pt : PhaseInstants) : Phase → ℤ
  | .morning => pt.morning
  | .day => pt.day
  | .evening => pt.evening
  | .night => pt.night

/-- The scheduler job table: the pending fire instant per job id. -/
structure JobTable where
  morning : Option ℤ
  day : Option ℤ
  evening : Option ℤ
  night : Option ℤ
  recalculate : Option ℤ
deriving DecidableEq, Repr

/-- Embedding of scheduler.remove_all_jobs(), line 373. -/
def JobTable.removeAll : JobTable := ⟨none, none, none, none, none⟩

/-- Embedding of scheduler.add_job with a phase name as id and
replace_existing, lines 440-448. -/
def JobTable.addPhaseJob (t : JobTable) (p : Phase) (fire : ℤ) : JobTable :=
  match p with
  | .morning => { t with morning := some fire }
  | .day => { t with day := some fire }
  | .evening => { t with evening := some fire }
  | .night => { t with night := some fire }

/-- One loop iteration of schedule_phase_changes, lines 429-450: a phase
job is added only when its instant is strictly in the future. -/
def schedule_one (now : ℤ) (pt : PhaseInstants) (t : JobTable) (p : Phase) :
    JobTable :=
  if pt.get p > now then t.addPhaseJob p (pt.get p) else t

/-- Embedding of schedule_phase_changes, lines 424-450: iterate over the
phases in order morning, day, evening, night. -/
def schedule_phase_changes (now : ℤ) (pt : PhaseInstants) (t : JobTable) :
    JobTable :=
  [Phase.morning, Phase.day, Phase.evening, Phase.night].foldl
    (schedule_one now pt) t

/-- Day index of an instant, as now.date(). -/
def dayOf (t : ℤ) : ℤ := t / 1440

/-- Minute of the day of an instant, as time.time(). -/
def timeOfDay (t : ℤ) : ℤ := t % 1440

/-- A calendar day combined with a minute of the day, as
datetime.combine. -/
def combine (day minuteOfDay : ℤ) : ℤ := 1440 * day + minuteOfDay

/-- Embedding of calculate_times_for_tomorrow, lines 370-422, in normal
(non-debug) mode: remove every job, derive tomorrow instants from the
clock times of the current phase schedule, schedule the future ones, and
re-add the recalculate marker for tomorrow 23:00 (minute 1380). -/
def calculate_times_for_tomorrow (now : ℤ) (todayPhases : PhaseInstants)
    (tbl : JobTable) : JobTable :=
  let cleared := JobTable.removeAll
  let tomorrow := dayOf now + 1
  let tomorrowPhases : PhaseInstants :=
    { morning := combine tomorrow (timeOfDay todayPhases.morning)
      day := combine tomorrow (timeOfDay todayPhases.day)
      evening := combine tomorrow (timeOfDay todayPhases.evening)
      night := combine tomorrow (timeOfDay todayPhases.night) }
  let t₁ := schedule_phase_changes now tomorrowPhases cleared
  { t₁ with recalculate := some (combine tomorrow 1380) }

/-- Counterexample to claim C9: at 23:00 (minute 1380) with a
still-pending night job for 23:40 today (minute 1420, not yet passed),
the recomputation does not leave that job in the table: its entry is
replaced by tomorrow's night instant. -/
theorem C9_counterexample_pending_job_removed :
    (1380 : ℤ) < 1420 ∧
    (calculate_times_for_tomorrow 1380 ⟨300, 480, 1200, 1420⟩
        ⟨none, none, none, some 1420, none⟩).night ≠ some 1420 := by
  exact ⟨by norm_num, by decide⟩

/-- Claim C9 amended: the recomputation discards the whole job table
(including any still-pending current-day phase jobs) and repopulates it
from scratch: the result does not depend on the prior table, every phase
entry it installs is strictly in the future, and the recalculate marker
is re-created for tomorrow 23:00, also in the future.  It never fires a
phase action itself, so no already-applied phase is undone. -/
theorem C9_recompute_rebuilds_table (now : ℤ) (todayPhases : PhaseInstants)
    (tbl tbl₂ : JobTable) :
    calculate_times_for_tomorrow now todayPhases tbl =
      calculate_times_for_tomorrow now todayPhases tbl₂ ∧
    (∀ t, (calculate_times_for_tomorrow now todayPhases tbl).morning =
      some t → now < t) ∧
    (∀ t, (calculate_times_for_tomorrow now todayPhases tbl).day =
      some t → now < t) ∧
    (∀ t, (calculate_times_for_tomorrow now todayPhases tbl).evening =
      some t → now < t) ∧
    (∀ t, (calculate_times_for_tomorrow now todayPhases tbl).night =
      some t → now < t) ∧
    (calculate_times_for_tomorrow now todayPhases tbl).recalculate =
      some (combine (dayOf now + 1) 1380) ∧
    now < combine (dayOf now + 1) 1380 := by
  refine ⟨rfl, ?_, ?_, ?_, ?_, ?_, ?_⟩
  · simp only [calculate_times_for_tomorrow, schedule_phase_changes,
      List.foldl, schedule_one, JobTable.addPhaseJob, PhaseInstants.get,
      JobTable.removeAll]
    split_ifs <;> intro t ht <;> simp_all
  · simp only [calculate_times_for_tomorrow, schedule_phase_changes,
      List.foldl, schedule_one, JobTable.addPhaseJob, PhaseInstants.get,
      JobTable.removeAll]
    split_ifs <;> intro t ht <;> simp_all
  · simp only [calculate_times_for_tomorrow, schedule_phase_changes,
      List.foldl, schedule_one, JobTable.addPhaseJob, PhaseInstants.get,
      JobTable.removeAll]
    split_ifs <;> intro t ht <;> simp_all
  · simp only [calculate_times_for_tomorrow, schedule_phase_changes,
      List.foldl, schedule_one, JobTable.addPhaseJob, PhaseInstants.get,
      JobTable.removeAll]
    split_ifs <;> intro t ht <;> simp_all
  · simp only [calculate_times_for_tomorrow, schedule_phase_changes,
      List.foldl, schedule_one, JobTable.addPhaseJob, PhaseInstants.get,
      JobTable.removeAll]
  · unfold combine dayOf
    omega

/-- Witness for C9 amended: the counterexample scenario, with the night
entry of the rebuilt table. -/
theorem C9_recompute_rebuilds_table_witness :
    (1380 : ℤ) <
      2860 ∧
    (calculate_times_for_tomorrow 1380 ⟨300, 480, 1200, 1420⟩
        ⟨none, none, none, some 1420, none⟩).night = some 2860 :=
  ⟨(C9_recompute_rebuilds_table 1380 ⟨300, 480, 1200, 1420⟩
      ⟨none, none, none, some 1420, none⟩
      ⟨none, none, none, some 1420, none⟩).2.2.2.2.1 2860 (by decide),
    by decide⟩

end CoverChange
